import Mathlib

/-!
# Verification of the phd-helper newsreader / shortlist engine

Shallow embedding of the discovery, dedup, shortlist and dismissal logic of
the repository (the Azure Functions newsreader module and the reference
lifecycle cascade in `references.js`), with theorems checking the
natural-language specification against it.

Modelling conventions:
* JS strings are Lean `String`s; absent (`undefined`/`null`) string fields
  are `Option String` with `none`.  JS truthiness on strings (`null`,
  `undefined` and `""` are falsy) is `jsTruthy`.
* The CosmosDB containers are modelled as a `Store` record: the references
  container is a list of documents with unique ids, the shortlist aggregate
  is an optional list of articles.  `upsertItem` is replacement-by-id
  (append when absent); a write counter records each shortlist persist so
  that "persist only if shrank" is observable in the model.
* The two external builtins used by the code, Node's
  `crypto.createHash('sha1')...digest('hex')` and JS `decodeURIComponent`,
  are not repository code; they are passed in as explicit function
  parameters (`hash : String → String`, `dec : String → Option String`,
  `none` modelling a decode exception).  All theorems are proved for every
  such function, hence in particular for the real SHA-1 and percent
  decoder.
* `async/await` sequencing is sequential state passing; `new Date(...)`
  timestamps are `now` parameters.  Calendar dates are year/month/day
  triples ordered lexicographically, which matches the numeric order of JS
  time values for the (UTC) dates the code constructs.
-/

/-- JS string truthiness: `null`/`undefined`/`""` are falsy. -/
def jsTruthy : Option String → Bool
  | none => false
  | some s => s != ""

/-- JS `a || b` on two possibly-absent strings. -/
def jsOr (a b : Option String) : Option String :=
  if jsTruthy a then a else b

/-- JS `v || null`: collapse a falsy string to `null`. -/
def toNull (v : Option String) : Option String :=
  if jsTruthy v then v else none

/-- Lowercasing character by character via `Char.toLower`; ASCII-faithful
model of JS `toLowerCase` (kernel-reducible, unlike `String.toLower`). -/
def toLowerStr (s : String) : String :=
  String.mk (s.toList.map Char.toLower)

/-- Strip leading and trailing whitespace; model of JS `trim`. -/
def trimStr (s : String) : String :=
  String.mk (((s.toList.dropWhile Char.isWhitespace).reverse.dropWhile Char.isWhitespace).reverse)

/-- `normalizeValue` (part_004 line 11 and references.js line 8):
`(value || '').toString().trim().toLowerCase()`. -/
def normalizeValue (v : Option String) : String :=
  toLowerStr (trimStr (v.getD ""))

/-- The fixed stopword set of part_004 lines 13-18. -/
def STOPWORDS : List String :=
  ["about", "above", "after", "again", "against", "between", "beyond", "could", "should", "would",
   "these", "those", "their", "there", "where", "which", "while", "with", "without", "using",
   "study", "studies", "paper", "papers", "research", "analysis", "review", "approach", "model",
   "system", "method", "methods", "results", "effect", "effects", "based", "towards", "future"]

/-- Split a character list into its maximal whitespace-free words; `cur`
accumulates the current word reversed.  (JS `split(/\s+/)` can also emit
empty edge tokens, but those are discarded by the length filter of
`tokenizeText`, so the two agree after filtering.) -/
def splitWordsAux (cur : List Char) : List Char → List String
  | [] => if cur.isEmpty then [] else [String.mk cur.reverse]
  | c :: cs =>
    if c.isWhitespace then
      if cur.isEmpty then splitWordsAux [] cs
      else String.mk cur.reverse :: splitWordsAux [] cs
    else splitWordsAux (c :: cur) cs

/-- `tokenizeText` (part_004 lines 20-24): lowercase, replace every
character outside `[a-z0-9\s]` by a space, split on whitespace, keep
tokens of length `> 3` that are not stopwords. -/
def tokenizeText (text : String) : List String :=
  (splitWordsAux []
    ((text.toList.map Char.toLower).map
      (fun c => if (('a' ≤ c ∧ c ≤ 'z') ∨ ('0' ≤ c ∧ c ≤ '9') ∨ c.isWhitespace) then c else ' '))).filter
    (fun t => decide (3 < t.length) && !(STOPWORDS.contains t))

/-- `decodeIdentifier` (part_004 lines 26-32): try `decodeURIComponent`,
return the raw value when it throws.  The builtin decoder is the
parameter `dec` (`none` = exception). -/
def decodeIdentifier (dec : String → Option String) (v : String) : String :=
  (dec v).getD v

/-- JS `Math.min(3, Math.max(2, Math.ceil(tokensSet.size * 0.6)))`
(part_004 line 532).  `(3 * n + 4) / 5` is `⌈3n/5⌉` on `Nat`; the clamped
value agrees with the double-precision computation at every `n` (the clamp
only depends on whether the product exceeds 2, i.e. on `n ≤ 3` vs
`n ≥ 4`, which the tiny rounding error of `0.6` cannot flip). -/
def requiredMatches (n : Nat) : Nat :=
  min 3 (max 2 ((3 * n + 4) / 5))

/-- Overlap count computed by the loop of part_004 lines 533-536: every
occurrence in the candidate's token *list* that is a member of the
dismissed token set counts (duplicated title tokens count once each). -/
def countMatches (titleTokens tokensSet : List String) : Nat :=
  (titleTokens.filter (fun tok => tokensSet.contains tok)).length

/-- Modelled from the spec: "the overlap count between the candidate's
token set and `D`" — overlap of the *deduplicated* candidate tokens with
`D`.  Used only to compare the spec's wording with the code's loop. -/
def specSetOverlap (titleTokens tokensSet : List String) : Nat :=
  ((titleTokens.eraseDups).filter (fun tok => tokensSet.contains tok)).length

/-- `isTooSimilarToDismissed` (part_004 lines 526-539), with the dismissed
token sets (JS `Set`s, modelled as duplicate-free lists) as a parameter. -/
def isTooSimilarToDismissed (dismissedTokenSets : List (List String)) (title : String) : Bool :=
  if title == "" || dismissedTokenSets.isEmpty then false
  else if (tokenizeText title).isEmpty then false
  else dismissedTokenSets.any (fun tokensSet =>
    decide (requiredMatches tokensSet.length ≤ countMatches (tokenizeText title) tokensSet))

/-- `buildDismissedId` (part_004 lines 77-81): `dismissed_` followed by the
hex SHA-1 of `doiKey || titleKey || 'unknown'`; the external hash is the
parameter `hash`. -/
def buildDismissedId (hash : String → String) (doiKey titleKey : String) : String :=
  let base := if doiKey != "" then doiKey else if titleKey != "" then titleKey else "unknown"
  "dismissed_" ++ hash base

/-- A calendar date (year, month, day), ordered lexicographically; models a
JS `Date` value at day granularity (the code runs in UTC). -/
structure Ymd where
  y : Nat
  m : Nat
  d : Nat
deriving DecidableEq, Repr

/-- Date comparison: `a` is no later than `b`. -/
def ymdLe (a b : Ymd) : Bool :=
  decide (a.y < b.y ∨ (a.y = b.y ∧ (a.m < b.m ∨ (a.m = b.m ∧ a.d ≤ b.d))))

/-- An article record as it flows through the newsreader module: candidate,
request body, or shortlist entry.  Fields not inspected by the verified
operations are omitted. -/
structure Article where
  doi : Option String := none
  title : Option String := none
  url : Option String := none
  source : Option String := none
  authors : Option String := none
  year : Option String := none
  doiKey : Option String := none
  titleKey : Option String := none
  addedAt : Option String := none
  isNew : Bool := false
  publishedDate : Option Ymd := none
deriving DecidableEq, Repr

/-- `getArticleKeys` (part_004 lines 34-38). -/
def getArticleKeys (article : Article) : String × String :=
  (normalizeValue article.doi, normalizeValue article.title)

/-- A document of the references container: a canonical reference or a
dismissed record (`dismissed = true`). -/
structure RefDoc where
  id : String
  type : Option String := none
  dismissed : Bool := false
  doi : Option String := none
  title : Option String := none
  url : Option String := none
  source : Option String := none
  authors : Option String := none
  year : Option String := none
  doiKey : Option String := none
  titleKey : Option String := none
  dateDismissed : Option String := none
  dateModified : Option String := none
deriving DecidableEq, Repr

/-- An HTTP response, reduced to the fields the spec talks about. -/
structure Resp where
  status : Nat
  error : Option String := none
  success : Bool := false
  skipped : Bool := false
deriving DecidableEq, Repr

/-- The persistent state: references container (unique-id document list),
the shortlist aggregate (`none` = document absent), and a counter of
shortlist persists (observability of "persist only if shrank"). -/
structure Store where
  references : List RefDoc := []
  shortlist : Option (List Article) := none
  shortlistWrites : Nat := 0
deriving DecidableEq, Repr

/-- CosmosDB `upsertItem` on the references container: replace the
document with the same id, append when absent. -/
def upsertById (d : RefDoc) : List RefDoc → List RefDoc
  | [] => [d]
  | x :: xs => if x.id == d.id then d :: xs else x :: upsertById d xs

/-- `upsertItem(REFERENCES_CONTAINER, doc)`. -/
def upsertRef (d : RefDoc) (s : Store) : Store :=
  { s with references := upsertById d s.references }

/-- `upsertItem(SHORTLIST_CONTAINER, shortlistDoc)`: replace the aggregate
and count the write. -/
def upsertShortlist (arts : List Article) (s : Store) : Store :=
  { s with shortlist := some arts, shortlistWrites := s.shortlistWrites + 1 }

/-- `getItem(CONTAINER_NAME, id, id)` on the references container. -/
def getRefItem (id : String) (s : Store) : Option RefDoc :=
  s.references.find? (fun d => d.id == id)

/-- The identity sets extracted from dismissed records
(`loadDismissedSets`, part_004 lines 135-161). -/
structure DismissedSets where
  dismissedDois : List String := []
  dismissedTitles : List String := []
  dismissedTokenSets : List (List String) := []
deriving DecidableEq, Repr

/-- `loadDismissedSets` (part_004 lines 135-161): scan the references
container for `dismissed = true` documents; collect the nonempty
normalized keys (`item.doiKey || item.doi`, `item.titleKey || item.title`)
and, per record, the `Set` of its title tokens (duplicate-free, only when
nonempty). -/
def loadDismissedSets (s : Store) : DismissedSets :=
  let items := s.references.filter (fun d => d.dismissed)
  { dismissedDois := items.filterMap (fun i =>
      let doiKey := normalizeValue (jsOr i.doiKey i.doi)
      if doiKey != "" then some doiKey else none),
    dismissedTitles := items.filterMap (fun i =>
      let titleKey := normalizeValue (jsOr i.titleKey i.title)
      if titleKey != "" then some titleKey else none),
    dismissedTokenSets := items.filterMap (fun i =>
      let tokens := tokenizeText (i.title.getD "")
      if tokens.isEmpty then none else some tokens.eraseDups) }

/-- `isDismissedArticle` (part_004 lines 83-88). -/
def isDismissedArticle (article : Article) (dismissedDois dismissedTitles : List String) : Bool :=
  let keys := getArticleKeys article
  (keys.1 != "" && dismissedDois.contains keys.1) ||
  (keys.2 != "" && dismissedTitles.contains keys.2)

/-- The keep-predicate of the filter in `removeFromShortlistByKeys`
(part_004 lines 168-173): an entry survives unless a nonempty dismissed
key equals the corresponding article key. -/
def articleKeepFilter (doiKey titleKey : String) (article : Article) : Bool :=
  let articleKeys := getArticleKeys article
  if doiKey != "" && articleKeys.1 == doiKey then false
  else if titleKey != "" && articleKeys.2 == titleKey then false
  else true

/-- The common body of the three shortlist-removal routines: fetch the
aggregate (no-op when absent), filter with the given keep-predicate, and
persist only when the list actually shrank. -/
def filterShortlistIfShrunk (keep : Article → Bool) (s : Store) : Store :=
  match s.shortlist with
  | none => s
  | some arts =>
    let filtered := arts.filter keep
    if filtered.length ≠ arts.length then upsertShortlist filtered s else s

/-- `removeFromShortlistByKeys` (part_004 lines 163-180): no-op when both
keys are empty or the aggregate is absent; otherwise filter with
`articleKeepFilter`, and persist only when the list actually shrank. -/
def removeFromShortlistByKeys (doiKey titleKey : String) (s : Store) : Store :=
  if doiKey == "" && titleKey == "" then s
  else filterShortlistIfShrunk (articleKeepFilter doiKey titleKey) s

/-- Keep-predicate of `removeFromShortlistByIdentifierKey`
(part_004 lines 45-50): survive unless either key equals the (nonempty)
identifier. -/
def identifierKeepFilter (identifierKey : String) (article : Article) : Bool :=
  let keys := getArticleKeys article
  if identifierKey != "" && keys.1 == identifierKey then false
  else if identifierKey != "" && keys.2 == identifierKey then false
  else true

/-- `removeFromShortlistByIdentifierKey` (part_004 lines 40-57). -/
def removeFromShortlistByIdentifierKey (identifierKey : String) (s : Store) : Store :=
  if identifierKey == "" then s
  else filterShortlistIfShrunk (identifierKeepFilter identifierKey) s

/-- `getIdentifierKeyFromRequest` (part_004 lines 59-75) restricted to the
resolved raw identifier (route param / query / body resolution is HTTP
glue): `null` for a falsy raw value, otherwise
`normalizeValue(decodeIdentifier(raw))`. -/
def getIdentifierKeyFromRequest (dec : String → Option String) (raw : Option String) : Option String :=
  match raw with
  | none => none
  | some r => if r == "" then none else some (normalizeValue (some (decodeIdentifier dec r)))

/-- The `RemoveFromShortlist` handler (part_004 lines 349-381): 400 when
the identifier is missing or normalizes to empty, otherwise remove and
report success. -/
def RemoveFromShortlist (dec : String → Option String) (raw : Option String) (s : Store) :
    Store × Resp :=
  let identifierKey := (getIdentifierKeyFromRequest dec raw).getD ""
  if identifierKey == "" then
    (s, { status := 400, error := some "identifier required" })
  else
    (removeFromShortlistByIdentifierKey identifierKey s, { status := 200, success := true })

/-- The `dismissedDoc` built by `handleDismissRequest` (part_004 lines
196-209). -/
def dismissedDocOf (hash : String → String) (now : String) (body : Article) : RefDoc :=
  let doiKey := normalizeValue body.doi
  let titleKey := normalizeValue body.title
  { id := buildDismissedId hash doiKey titleKey,
    type := some "dismissed",
    dismissed := true,
    doi := toNull body.doi,
    title := toNull body.title,
    url := toNull body.url,
    source := toNull body.source,
    authors := toNull body.authors,
    year := toNull body.year,
    doiKey := if doiKey != "" then some doiKey else none,
    titleKey := if titleKey != "" then some titleKey else none,
    dateDismissed := some now }

/-- `handleDismissRequest` (part_004 lines 182-219): validate, upsert the
dismissed record under the deterministic id, then synchronously purge the
shortlist before returning 200. -/
def handleDismissRequest (hash : String → String) (now : String) (body : Article) (s : Store) :
    Store × Resp :=
  if !(jsTruthy body.doi) && !(jsTruthy body.title) then
    (s, { status := 400, error := some "doi or title required" })
  else
    let doiKey := normalizeValue body.doi
    let titleKey := normalizeValue body.title
    let s1 := upsertRef (dismissedDocOf hash now body) s
    let s2 := removeFromShortlistByKeys doiKey titleKey s1
    (s2, { status := 200, success := true })

/-- The duplicate test of `AddToShortlist` (part_004 lines 318-321): an
existing entry whose key equals a nonempty key of the incoming article. -/
def addDupPred (article a : Article) : Bool :=
  ((getArticleKeys article).1 != "" && (getArticleKeys a).1 == (getArticleKeys article).1) ||
  ((getArticleKeys article).2 != "" && (getArticleKeys a).2 == (getArticleKeys article).2)

/-- The entry pushed by `AddToShortlist` (part_004 lines 324-329):
`{...article, doiKey: doiKey || null, titleKey: titleKey || null,
addedAt}`. -/
def shortlistEntryOf (article : Article) (now : String) : Article :=
  let doiKey := (getArticleKeys article).1
  let titleKey := (getArticleKeys article).2
  { article with
    doiKey := if doiKey != "" then some doiKey else none,
    titleKey := if titleKey != "" then some titleKey else none,
    addedAt := some now }

/-- The `AddToShortlist` handler (part_004 lines 287-347): 400 without a
truthy title; skip (success) when the identity is dismissed; success
without appending when either nonempty key already occurs; otherwise
append the entry with the precomputed keys and `addedAt`. -/
def AddToShortlist (article : Article) (now : String) (s : Store) : Store × Resp :=
  if !(jsTruthy article.title) then
    (s, { status := 400, error := some "Article title required" })
  else
    let ds := loadDismissedSets s
    if isDismissedArticle article ds.dismissedDois ds.dismissedTitles then
      (s, { status := 200, success := true, skipped := true })
    else
      let arts := s.shortlist.getD []
      if arts.any (addDupPred article) then (s, { status := 200, success := true })
      else
        (upsertShortlist (arts ++ [shortlistEntryOf article now]) s,
         { status := 200, success := true })

/-- A regex word character (`\w`): letter, digit or underscore. -/
def isWordChar (c : Char) : Bool :=
  ('a' ≤ c && c ≤ 'z') || ('A' ≤ c && c ≤ 'Z') || ('0' ≤ c && c ≤ '9') || c == '_'

/-- `p` occurs at the head of `l`. -/
def prefOf : List Char → List Char → Bool
  | [], _ => true
  | _ :: _, [] => false
  | a :: as, b :: bs => a == b && prefOf as bs

/-- `n` occurs somewhere inside `l` (JS `String.prototype.includes`). -/
def subOf (n : List Char) : List Char → Bool
  | [] => n.isEmpty
  | b :: bs => prefOf n (b :: bs) || subOf n bs

/-- The character after the first `n` positions is absent or a non-word
character (regex `\b` on the right). -/
def boundaryAfter (n : Nat) (l : List Char) : Bool :=
  match l.drop n with
  | [] => true
  | c :: _ => !isWordChar c

/-- Scan for a whole-word occurrence of `w` (`/\bw\b/`): `prev` is the
character before the current position. -/
def wordScan (w : List Char) : Option Char → List Char → Bool
  | prev, [] =>
    (match prev with | none => true | some c => !isWordChar c) && prefOf w [] && boundaryAfter w.length []
  | prev, c :: cs =>
    ((match prev with | none => true | some p => !isWordChar p) &&
      prefOf w (c :: cs) && boundaryAfter w.length (c :: cs)) ||
    wordScan w (some c) cs

/-- `/\bword\b/i.test(text)` for an all-lowercase `word` against an
already-lowercased `text`. -/
def containsWordCI (word text : String) : Bool :=
  wordScan word.toList none text.toList

/-- `RELEVANCE_KEYWORDS` (part_004 lines 441-450). -/
def RELEVANCE_KEYWORDS : List String :=
  ["artificial intelligence", "AI", "machine learning", "generative", "neural network",
   "deep learning", "GPT", "LLM", "language model", "diffusion", "DALL-E", "Midjourney",
   "ChatGPT", "creative", "creativity", "art", "artist", "design", "designer",
   "music", "writing", "author", "copyright", "intellectual property", "automation",
   "labor", "labour", "work", "worker", "employment", "job", "platform", "gig economy",
   "human-computer", "HCI", "interaction", "co-creation", "collaboration",
   "media", "journalism", "content", "algorithm", "computational", "authorship",
   "creative industries", "cultural industries", "precarity", "deskilling"]

/-- The words of the off-topic patterns of part_004 lines 505-512, each
tested as `/\bword\b/i`. -/
def OFFTOPIC_WORDS : List String :=
  ["healthcare", "medical", "clinical", "patient",
   "biological", "chemistry", "physics", "geology",
   "agriculture", "farming", "crop",
   "sports", "athletic",
   "financial", "banking", "stock",
   "military", "defense", "weapon"]

/-- `isRelevantArticle` (part_004 lines 500-514): positive keyword gate
(case-insensitive substring) then off-topic word-boundary exclusion. -/
def isRelevantArticle (title : Option String) (abstract : String) : Bool :=
  let text := toLowerStr ((title.getD "") ++ " " ++ abstract)
  let hasRelevantKeyword := RELEVANCE_KEYWORDS.any (fun kw => subOf (toLowerStr kw).toList text.toList)
  if !hasRelevantKeyword then false
  else !(OFFTOPIC_WORDS.any (fun w => containsWordCI w text))

/-- `/^[\d\.\s]+$/.test(title)` (part_004 line 543). -/
def isAllNumPunct (t : String) : Bool :=
  decide (t.length ≠ 0) && t.toList.all (fun c => c.isDigit || c == '.' || c.isWhitespace)

/-- `/^title pending/i.test(title)` (part_004 line 544). -/
def isTitlePendingPlaceholder (t : String) : Bool :=
  prefOf "title pending".toList (toLowerStr t).toList

/-- The filtering context captured by the `isValidArticle` closure: the
existing-reference/shortlist identity sets, the dismissed sets, and the
candidates already admitted in this run (`allArticles`). -/
structure DedupCtx where
  existingDOIs : List String := []
  existingTitles : List String := []
  dismissedDois : List String := []
  dismissedTitles : List String := []
  dismissedTokenSets : List (List String) := []
  allArticles : List Article := []
deriving Repr

/-- `isValidArticle` (part_004 lines 541-558): the composite admission
gate, rejections in source order. -/
def isValidArticle (ctx : DedupCtx) (title doi : Option String) (abstract : String) : Bool :=
  let t := title.getD ""
  if t.length < 10 then false
  else if isAllNumPunct t then false
  else if isTitlePendingPlaceholder t then false
  else
    let titleLower := normalizeValue title
    let doiKey := normalizeValue doi
    if doiKey != "" && ctx.existingDOIs.contains doiKey then false
    else if titleLower != "" && ctx.existingTitles.contains titleLower then false
    else if doiKey != "" && ctx.dismissedDois.contains doiKey then false
    else if titleLower != "" && ctx.dismissedTitles.contains titleLower then false
    else if isTooSimilarToDismissed ctx.dismissedTokenSets t then false
    else if ctx.allArticles.any (fun a =>
        (doiKey != "" && (getArticleKeys a).1 == doiKey) ||
        (titleLower != "" && (getArticleKeys a).2 == titleLower)) then false
    else isRelevantArticle title abstract

/-- Parse a plain digit string (the shape `String(year)` always has). -/
def parseNatDigits (l : List Char) : Option Nat :=
  if l ≠ [] ∧ l.all Char.isDigit then
    some (l.foldl (fun n c => n * 10 + (c.toNat - 48)) 0)
  else none

/-- `new Date(a.year, 0, 1)`: the year string coerced to a number (JS maps
0-99 to 1900-1999), January 1st; `none` models an invalid date. -/
def yearStartDate (year : Option String) : Option Ymd :=
  match year with
  | none => none
  | some s =>
    match parseNatDigits s.toList with
    | none => none
    | some n => some { y := if n < 100 then 1900 + n else n, m := 1, d := 1 }

/-- The best-known date of the sort comparator (part_004 lines 769-770):
`a.publishedDate ? new Date(a.publishedDate) : new Date(a.year, 0, 1)`. -/
def bestDate (a : Article) : Option Ymd :=
  match a.publishedDate with
  | some d => some d
  | none => yearStartDate a.year

/-- `bestDate` with invalid dates defaulted; the fetch loops guarantee a
numeric year 2020-2026 on every assembled candidate, so the default is
never reached on code-produced data. -/
def bestDateD (a : Article) : Ymd :=
  (bestDate a).getD { y := 0, m := 0, d := 0 }

/-- Insert into a descending-by-date list (models one step of
`allArticles.sort((a, b) => dateB - dateA)`). -/
def insertByDate (a : Article) : List Article → List Article
  | [] => [a]
  | b :: bs => if ymdLe (bestDateD b) (bestDateD a) then a :: b :: bs else b :: insertByDate a bs

/-- Sort descending by best-known date (part_004 lines 768-772). -/
def sortByDateDesc : List Article → List Article
  | [] => []
  | a :: as => insertByDate a (sortByDateDesc as)

/-- The assembly stage of `GetNewsreaderArticles` (part_004 lines
767-785): sort newest first, post-filter to `isNew` in only-new mode,
drop dismissed identities, truncate to 30. -/
def GetNewsreaderArticlesAssemble (filterNew : Bool) (dismissedDois dismissedTitles : List String)
    (allArticles : List Article) : List Article :=
  let results := sortByDateDesc allArticles
  let results := if filterNew then results.filter (fun a => a.isNew) else results
  let filteredResults := results.filter (fun a => !isDismissedArticle a dismissedDois dismissedTitles)
  filteredResults.take 30

/-- `getReferenceKeys` (references.js lines 10-14). -/
def getReferenceKeys (reference : RefDoc) : String × String :=
  (normalizeValue reference.doi, normalizeValue reference.title)

/-- Keep-predicate of the filter in references.js lines 21-27: entry keys
fall back from the stored key to the raw field (`doiKey || doi`,
`titleKey || title`). -/
def refKeepFilter (doiKey titleKey : String) (article : Article) : Bool :=
  let articleDoiKey := normalizeValue (jsOr article.doiKey article.doi)
  let articleTitleKey := normalizeValue (jsOr article.titleKey article.title)
  if doiKey != "" && articleDoiKey == doiKey then false
  else if titleKey != "" && articleTitleKey == titleKey then false
  else true

/-- `removeFromShortlistByKeys` of references.js (lines 16-34); same shape
as the part_004 variant but with the fallback key extraction. -/
def referencesRemoveFromShortlistByKeys (doiKey titleKey : String) (s : Store) : Store :=
  if doiKey == "" && titleKey == "" then s
  else filterShortlistIfShrunk (refKeepFilter doiKey titleKey) s

/-- A reference-update request body, restricted to the identity fields the
cascade inspects; `none` = field absent from the body (JS spread keeps the
existing value). -/
structure RefUpdate where
  title : Option String := none
  doi : Option String := none
deriving Repr

/-- `{...existing, ...body, id, dateModified}` (references.js lines
126-131). -/
def applyRefUpdate (existing : RefDoc) (body : RefUpdate) (id now : String) : RefDoc :=
  { existing with
    title := match body.title with | some t => some t | none => existing.title,
    doi := match body.doi with | some d => some d | none => existing.doi,
    id := id,
    dateModified := some now }

/-- The `UpdateReference` handler (references.js lines 107-156): 404 when
the reference is absent; otherwise upsert the merged record, then purge
the shortlist under the pre-update keys and the post-update keys. -/
def UpdateReference (id : String) (body : RefUpdate) (now : String) (s : Store) : Store × Resp :=
  match getRefItem id s with
  | none => (s, { status := 404, error := some "Reference not found" })
  | some existing =>
    let updatedReference := applyRefUpdate existing body id now
    let s1 := upsertRef updatedReference s
    let existingKeys := getReferenceKeys existing
    let updatedKeys := getReferenceKeys updatedReference
    let s2 := referencesRemoveFromShortlistByKeys existingKeys.1 existingKeys.2 s1
    let s3 := referencesRemoveFromShortlistByKeys updatedKeys.1 updatedKeys.2 s2
    (s3, { status := 200, success := true })

/-- Number of documents with a given id in the references container. -/
def countId (id : String) (l : List RefDoc) : Nat :=
  (l.filter (fun d => d.id == id)).length

/-- The identity-match relation of the dismissal cascade (part_004 lines
168-172), at the Prop level: a nonempty dismissed key equals the
corresponding article key. -/
def matchesDismissedKeys (doiKey titleKey : String) (article : Article) : Prop :=
  (doiKey ≠ "" ∧ (getArticleKeys article).1 = doiKey) ∨
  (titleKey ≠ "" ∧ (getArticleKeys article).2 = titleKey)

/-- The identity-match relation of the references.js cascade (lines
21-26), at the Prop level, with the stored-key fallback. -/
def refMatchesKeys (doiKey titleKey : String) (article : Article) : Prop :=
  (doiKey ≠ "" ∧ normalizeValue (jsOr article.doiKey article.doi) = doiKey) ∨
  (titleKey ≠ "" ∧ normalizeValue (jsOr article.titleKey article.title) = titleKey)

/-- Two shortlist entries share an identity: equal nonempty doi keys or
equal nonempty title keys. -/
def keysClash (a b : Article) : Prop :=
  ((getArticleKeys a).1 ≠ "" ∧ (getArticleKeys a).1 = (getArticleKeys b).1) ∨
  ((getArticleKeys a).2 ≠ "" ∧ (getArticleKeys a).2 = (getArticleKeys b).2)

/-- The Shortlist aggregate invariant: no two entries share a nonempty doi
key or a nonempty title key. -/
def ShortlistOk (s : Store) : Prop :=
  ∀ arts, s.shortlist = some arts → arts.Pairwise (fun a b => ¬ keysClash a b)

theorem articleKeepFilter_true_iff (doiKey titleKey : String) (a : Article) :
    articleKeepFilter doiKey titleKey a = true ↔ ¬ matchesDismissedKeys doiKey titleKey a := by
  simp only [articleKeepFilter, matchesDismissedKeys]
  by_cases h1 : (doiKey != "" && (getArticleKeys a).1 == doiKey) = true
  · simp only [h1, if_true]
    simp only [Bool.and_eq_true, bne_iff_ne, beq_iff_eq] at h1
    simp [h1]
  · simp only [Bool.not_eq_true] at h1
    simp only [h1, Bool.false_eq_true, if_false]
    by_cases h2 : (titleKey != "" && (getArticleKeys a).2 == titleKey) = true
    · simp only [h2, if_true]
      simp only [Bool.and_eq_true, bne_iff_ne, beq_iff_eq] at h2
      simp [h2]
    · simp only [Bool.not_eq_true] at h2
      simp only [h2, Bool.false_eq_true, if_false, true_iff]
      simp only [Bool.and_eq_false_iff, bne_eq_false_iff_eq, beq_eq_false_iff_ne] at h1 h2
      rintro (⟨hne, heq⟩ | ⟨hne, heq⟩)
      · rcases h1 with h | h
        · exact hne h
        · exact h heq
      · rcases h2 with h | h
        · exact hne h
        · exact h heq

theorem refKeepFilter_true_iff (doiKey titleKey : String) (a : Article) :
    refKeepFilter doiKey titleKey a = true ↔ ¬ refMatchesKeys doiKey titleKey a := by
  simp only [refKeepFilter, refMatchesKeys]
  by_cases h1 : (doiKey != "" && normalizeValue (jsOr a.doiKey a.doi) == doiKey) = true
  · simp only [h1, if_true]
    simp only [Bool.and_eq_true, bne_iff_ne, beq_iff_eq] at h1
    simp [h1]
  · simp only [Bool.not_eq_true] at h1
    simp only [h1, Bool.false_eq_true, if_false]
    by_cases h2 : (titleKey != "" && normalizeValue (jsOr a.titleKey a.title) == titleKey) = true
    · simp only [h2, if_true]
      simp only [Bool.and_eq_true, bne_iff_ne, beq_iff_eq] at h2
      simp [h2]
    · simp only [Bool.not_eq_true] at h2
      simp only [h2, Bool.false_eq_true, if_false, true_iff]
      simp only [Bool.and_eq_false_iff, bne_eq_false_iff_eq, beq_eq_false_iff_ne] at h1 h2
      rintro (⟨hne, heq⟩ | ⟨hne, heq⟩)
      · rcases h1 with h | h
        · exact hne h
        · exact h heq
      · rcases h2 with h | h
        · exact hne h
        · exact h heq

theorem identifierKeepFilter_false_iff (key : String) (a : Article) (hk : key ≠ "") :
    identifierKeepFilter key a = false ↔
      ((getArticleKeys a).1 = key ∨ (getArticleKeys a).2 = key) := by
  simp only [identifierKeepFilter]
  by_cases h1 : (key != "" && (getArticleKeys a).1 == key) = true
  · simp only [h1, if_true]
    simp only [Bool.and_eq_true, bne_iff_ne, beq_iff_eq] at h1
    simp [h1]
  · simp only [Bool.not_eq_true] at h1
    simp only [h1, Bool.false_eq_true, if_false]
    by_cases h2 : (key != "" && (getArticleKeys a).2 == key) = true
    · simp only [h2, if_true]
      simp only [Bool.and_eq_true, bne_iff_ne, beq_iff_eq] at h2
      simp [h2]
    · simp only [Bool.not_eq_true] at h2
      simp only [h2, Bool.false_eq_true, if_false]
      simp only [Bool.and_eq_false_iff, bne_eq_false_iff_eq, beq_eq_false_iff_ne] at h1 h2
      constructor
      · intro h; simp at h
      · rintro (h | h)
        · rcases h1 with hx | hx
          · exact absurd hx hk
          · exact absurd h hx
        · rcases h2 with hx | hx
          · exact absurd hx hk
          · exact absurd h hx

theorem filterShortlistIfShrunk_none (keep : Article → Bool) (refs : List RefDoc) (w : Nat) :
    filterShortlistIfShrunk keep ⟨refs, none, w⟩ = ⟨refs, none, w⟩ := rfl

theorem filterShortlistIfShrunk_some (keep : Article → Bool) (refs : List RefDoc)
    (arts : List Article) (w : Nat) :
    filterShortlistIfShrunk keep ⟨refs, some arts, w⟩ =
      if (arts.filter keep).length ≠ arts.length
      then ⟨refs, some (arts.filter keep), w + 1⟩ else ⟨refs, some arts, w⟩ := rfl

theorem filterShortlistIfShrunk_shortlist (keep : Article → Bool) (s : Store)
    (arts : List Article) (h : s.shortlist = some arts) :
    (filterShortlistIfShrunk keep s).shortlist = some (arts.filter keep) := by
  obtain ⟨refs, sl, w⟩ := s
  have h' : sl = some arts := h
  subst h'
  rw [filterShortlistIfShrunk_some]
  by_cases hl : (arts.filter keep).length ≠ arts.length
  · rw [if_pos hl]
  · rw [if_neg hl]
    push_neg at hl
    rw [(List.filter_sublist arts).eq_of_length hl]

theorem filterShortlistIfShrunk_keeps (keep : Article → Bool) (s : Store) :
    ∀ a ∈ (filterShortlistIfShrunk keep s).shortlist.getD [], keep a = true := by
  intro a ha
  obtain ⟨refs, sl, w⟩ := s
  cases sl with
  | none => rw [filterShortlistIfShrunk_none] at ha; simp at ha
  | some arts =>
    rw [filterShortlistIfShrunk_shortlist keep _ arts rfl] at ha
    simp only [Option.getD_some] at ha
    exact (List.mem_filter.mp ha).2

theorem filterShortlistIfShrunk_mem_orig (keep : Article → Bool) (s : Store) :
    ∀ a ∈ (filterShortlistIfShrunk keep s).shortlist.getD [], a ∈ s.shortlist.getD [] := by
  intro a ha
  obtain ⟨refs, sl, w⟩ := s
  cases sl with
  | none => rw [filterShortlistIfShrunk_none] at ha; exact ha
  | some arts =>
    rw [filterShortlistIfShrunk_shortlist keep _ arts rfl] at ha
    simp only [Option.getD_some] at ha
    simpa using List.mem_of_mem_filter ha

theorem filterShortlistIfShrunk_references (keep : Article → Bool) (s : Store) :
    (filterShortlistIfShrunk keep s).references = s.references := by
  obtain ⟨refs, sl, w⟩ := s
  cases sl with
  | none => rfl
  | some arts =>
    rw [filterShortlistIfShrunk_some]
    by_cases hl : (arts.filter keep).length ≠ arts.length
    · rw [if_pos hl]
    · rw [if_neg hl]

theorem filterShortlistIfShrunk_eq_self (keep : Article → Bool) (s : Store)
    (arts : List Article) (h : s.shortlist = some arts) (hall : arts.filter keep = arts) :
    filterShortlistIfShrunk keep s = s := by
  obtain ⟨refs, sl, w⟩ := s
  have h' : sl = some arts := h
  subst h'
  rw [filterShortlistIfShrunk_some, hall]
  simp

theorem filterShortlistIfShrunk_writes (keep : Article → Bool) (s : Store)
    (arts : List Article) (h : s.shortlist = some arts) (hsh : arts.filter keep ≠ arts) :
    (filterShortlistIfShrunk keep s).shortlistWrites = s.shortlistWrites + 1 := by
  obtain ⟨refs, sl, w⟩ := s
  have h' : sl = some arts := h
  subst h'
  have hl : (arts.filter keep).length ≠ arts.length := by
    intro he
    exact hsh ((List.filter_sublist arts).eq_of_length he)
  rw [filterShortlistIfShrunk_some, if_pos hl]

theorem removeFromShortlistByKeys_keeps (doiKey titleKey : String) (s : Store) :
    ∀ a ∈ (removeFromShortlistByKeys doiKey titleKey s).shortlist.getD [],
      articleKeepFilter doiKey titleKey a = true := by
  intro a ha
  unfold removeFromShortlistByKeys at ha
  by_cases hg : (doiKey == "" && titleKey == "") = true
  · rw [if_pos hg] at ha
    simp only [Bool.and_eq_true, beq_iff_eq] at hg
    obtain ⟨h1, h2⟩ := hg
    subst h1
    subst h2
    simp [articleKeepFilter]
  · rw [if_neg hg] at ha
    exact filterShortlistIfShrunk_keeps _ _ a ha

theorem removeFromShortlistByKeys_mem_orig (doiKey titleKey : String) (s : Store) :
    ∀ a ∈ (removeFromShortlistByKeys doiKey titleKey s).shortlist.getD [],
      a ∈ s.shortlist.getD [] := by
  intro a ha
  unfold removeFromShortlistByKeys at ha
  by_cases hg : (doiKey == "" && titleKey == "") = true
  · rw [if_pos hg] at ha; exact ha
  · rw [if_neg hg] at ha
    exact filterShortlistIfShrunk_mem_orig _ _ a ha

theorem removeFromShortlistByKeys_references (doiKey titleKey : String) (s : Store) :
    (removeFromShortlistByKeys doiKey titleKey s).references = s.references := by
  unfold removeFromShortlistByKeys
  by_cases hg : (doiKey == "" && titleKey == "") = true
  · rw [if_pos hg]
  · rw [if_neg hg]
    exact filterShortlistIfShrunk_references _ _

theorem referencesRemoveFromShortlistByKeys_keeps (doiKey titleKey : String) (s : Store) :
    ∀ a ∈ (referencesRemoveFromShortlistByKeys doiKey titleKey s).shortlist.getD [],
      refKeepFilter doiKey titleKey a = true := by
  intro a ha
  unfold referencesRemoveFromShortlistByKeys at ha
  by_cases hg : (doiKey == "" && titleKey == "") = true
  · rw [if_pos hg] at ha
    simp only [Bool.and_eq_true, beq_iff_eq] at hg
    obtain ⟨h1, h2⟩ := hg
    subst h1
    subst h2
    simp [refKeepFilter]
  · rw [if_neg hg] at ha
    exact filterShortlistIfShrunk_keeps _ _ a ha

theorem referencesRemoveFromShortlistByKeys_mem_orig (doiKey titleKey : String) (s : Store) :
    ∀ a ∈ (referencesRemoveFromShortlistByKeys doiKey titleKey s).shortlist.getD [],
      a ∈ s.shortlist.getD [] := by
  intro a ha
  unfold referencesRemoveFromShortlistByKeys at ha
  by_cases hg : (doiKey == "" && titleKey == "") = true
  · rw [if_pos hg] at ha; exact ha
  · rw [if_neg hg] at ha
    exact filterShortlistIfShrunk_mem_orig _ _ a ha

theorem mem_id_upsertById (d : RefDoc) (l : List RefDoc) (y : String)
    (h : y ∈ (upsertById d l).map RefDoc.id) : y = d.id ∨ y ∈ l.map RefDoc.id := by
  induction l with
  | nil =>
    simp only [upsertById, List.map_cons, List.map_nil, List.mem_singleton] at h
    exact Or.inl h
  | cons x xs ih =>
    unfold upsertById at h
    by_cases hx : (x.id == d.id) = true
    · rw [if_pos hx] at h
      simp only [List.map_cons, List.mem_cons] at h ⊢
      rcases h with h | h
      · exact Or.inl h
      · exact Or.inr (Or.inr h)
    · rw [if_neg hx] at h
      simp only [List.map_cons, List.mem_cons] at h ⊢
      rcases h with h | h
      · exact Or.inr (Or.inl h)
      · rcases ih h with h' | h'
        · exact Or.inl h'
        · exact Or.inr (Or.inr h')

theorem nodup_upsertById (d : RefDoc) (l : List RefDoc)
    (h : (l.map RefDoc.id).Nodup) : ((upsertById d l).map RefDoc.id).Nodup := by
  induction l with
  | nil => simp [upsertById]
  | cons x xs ih =>
    simp only [List.map_cons, List.nodup_cons] at h
    obtain ⟨hx, hxs⟩ := h
    unfold upsertById
    by_cases hbe : (x.id == d.id) = true
    · rw [if_pos hbe]
      simp only [List.map_cons, List.nodup_cons]
      have hxd : x.id = d.id := by simpa using hbe
      exact ⟨hxd ▸ hx, hxs⟩
    · rw [if_neg hbe]
      simp only [List.map_cons, List.nodup_cons]
      refine ⟨?_, ih hxs⟩
      intro hmem
      rcases mem_id_upsertById d xs x.id hmem with h' | h'
      · exact hbe (by simp [h'])
      · exact hx h'

theorem countId_upsertById (d : RefDoc) (l : List RefDoc)
    (h : (l.map RefDoc.id).Nodup) : countId d.id (upsertById d l) = 1 := by
  induction l with
  | nil => simp [upsertById, countId]
  | cons x xs ih =>
    simp only [List.map_cons, List.nodup_cons] at h
    obtain ⟨hx, hxs⟩ := h
    unfold upsertById
    by_cases hbe : (x.id == d.id) = true
    · rw [if_pos hbe]
      have hxd : x.id = d.id := by simpa using hbe
      have hzero : countId d.id xs = 0 := by
        unfold countId
        rw [List.length_eq_zero, List.filter_eq_nil_iff]
        intro a ha hbeq
        have haid : a.id = d.id := by simpa using hbeq
        exact hx (hxd ▸ haid ▸ List.mem_map_of_mem RefDoc.id ha)
      unfold countId at hzero ⊢
      rw [List.filter_cons]
      simp [hzero]
    · rw [if_neg hbe]
      unfold countId at ih ⊢
      rw [List.filter_cons]
      have hbf : (x.id == d.id) = false := by simpa using hbe
      simp only [hbf, Bool.false_eq_true, if_false]
      exact ih hxs

theorem upsertRef_references (d : RefDoc) (s : Store) :
    (upsertRef d s).references = upsertById d s.references := rfl

theorem handleDismissRequest_eq_of_id (hash : String → String) (now : String) (body : Article)
    (s : Store) (h : jsTruthy body.doi = true ∨ jsTruthy body.title = true) :
    handleDismissRequest hash now body s =
      (removeFromShortlistByKeys (normalizeValue body.doi) (normalizeValue body.title)
        (upsertRef (dismissedDocOf hash now body) s),
       { status := 200, success := true }) := by
  unfold handleDismissRequest
  rcases h with h | h <;> simp [h]

theorem AddToShortlist_eq_invalid (article : Article) (now : String) (s : Store)
    (h : jsTruthy article.title = false) :
    AddToShortlist article now s = (s, { status := 400, error := some "Article title required" }) := by
  unfold AddToShortlist
  simp [h]

theorem AddToShortlist_eq_skip (article : Article) (now : String) (s : Store)
    (h1 : jsTruthy article.title = true)
    (h2 : isDismissedArticle article (loadDismissedSets s).dismissedDois
            (loadDismissedSets s).dismissedTitles = true) :
    AddToShortlist article now s = (s, { status := 200, success := true, skipped := true }) := by
  unfold AddToShortlist
  simp [h1, h2]

theorem AddToShortlist_eq_dup (article : Article) (now : String) (s : Store)
    (h1 : jsTruthy article.title = true)
    (h2 : isDismissedArticle article (loadDismissedSets s).dismissedDois
            (loadDismissedSets s).dismissedTitles = false)
    (h3 : (s.shortlist.getD []).any (addDupPred article) = true) :
    AddToShortlist article now s = (s, { status := 200, success := true }) := by
  unfold AddToShortlist
  simp [h1, h2, h3]

theorem AddToShortlist_eq_append (article : Article) (now : String) (s : Store)
    (h1 : jsTruthy article.title = true)
    (h2 : isDismissedArticle article (loadDismissedSets s).dismissedDois
            (loadDismissedSets s).dismissedTitles = false)
    (h3 : (s.shortlist.getD []).any (addDupPred article) = false) :
    AddToShortlist article now s =
      (upsertShortlist ((s.shortlist.getD []) ++ [shortlistEntryOf article now]) s,
       { status := 200, success := true }) := by
  unfold AddToShortlist
  simp [h1, h2, h3]

/-- The descending-date order used by the assembler. -/
def dateDescRel (x y : Article) : Prop :=
  ymdLe (bestDateD y) (bestDateD x) = true

theorem ymdLe_total (a b : Ymd) : ymdLe a b = true ∨ ymdLe b a = true := by
  unfold ymdLe
  simp only [decide_eq_true_eq]
  omega

theorem ymdLe_trans {a b c : Ymd} (h1 : ymdLe a b = true) (h2 : ymdLe b c = true) :
    ymdLe a c = true := by
  unfold ymdLe at h1 h2 ⊢
  simp only [decide_eq_true_eq] at h1 h2 ⊢
  omega

theorem mem_insertByDate {a x : Article} {l : List Article} (h : a ∈ insertByDate x l) :
    a = x ∨ a ∈ l := by
  induction l with
  | nil => simpa [insertByDate] using h
  | cons b bs ih =>
    unfold insertByDate at h
    by_cases hc : ymdLe (bestDateD b) (bestDateD x) = true
    · rw [if_pos hc] at h
      simpa using h
    · rw [if_neg hc] at h
      simp only [List.mem_cons] at h ⊢
      rcases h with h | h
      · exact Or.inr (Or.inl h)
      · rcases ih h with h' | h'
        · exact Or.inl h'
        · exact Or.inr (Or.inr h')

theorem pairwise_insertByDate (x : Article) (l : List Article)
    (h : l.Pairwise dateDescRel) : (insertByDate x l).Pairwise dateDescRel := by
  induction l with
  | nil => simp [insertByDate]
  | cons b bs ih =>
    rw [List.pairwise_cons] at h
    obtain ⟨hb, hbs⟩ := h
    unfold insertByDate
    by_cases hc : ymdLe (bestDateD b) (bestDateD x) = true
    · rw [if_pos hc]
      rw [List.pairwise_cons]
      constructor
      · intro y hy
        simp only [List.mem_cons] at hy
        rcases hy with hy | hy
        · subst hy; exact hc
        · exact ymdLe_trans (hb y hy) hc
      · exact List.pairwise_cons.mpr ⟨hb, hbs⟩
    · rw [if_neg hc]
      rw [List.pairwise_cons]
      constructor
      · intro y hy
        rcases mem_insertByDate hy with h' | h'
        · subst h'
          rcases ymdLe_total (bestDateD b) (bestDateD y) with ht | ht
          · exact absurd ht hc
          · exact ht
        · exact hb y h'
      · exact ih hbs

theorem pairwise_sortByDateDesc (l : List Article) : (sortByDateDesc l).Pairwise dateDescRel := by
  induction l with
  | nil => simp [sortByDateDesc]
  | cons a as ih => exact pairwise_insertByDate a _ ih

theorem two_le_requiredMatches (n : Nat) : 2 ≤ requiredMatches n := by
  unfold requiredMatches
  omega

theorem tokenizeText_empty : tokenizeText "" = [] := by decide

theorem countMatches_nil (D : List String) : countMatches [] D = 0 := rfl

/-- A dismissed record whose title is "Generative Creativity" (token set
`{generative, creativity}`, size 2, threshold 2). -/
def cxDismissedDoc : RefDoc :=
  { id := "d1", dismissed := true, title := some "Generative Creativity" }

/-- C3 counterexample: the code counts overlap over the candidate's token
*list*, not its token *set*.  Against the dismissed token set
`{generative, creativity}` (threshold 2), the candidate title
"Generative AI for generative thought" is rejected by the code (the
duplicated token `generative` counts twice), although the overlap of its
token *set* with `D` is only 1 < 2, so the claimed "if and only if" with
set overlap is false. -/
theorem near_duplicate_set_overlap_counterexample :
    (loadDismissedSets { references := [cxDismissedDoc] }).dismissedTokenSets =
      [["generative", "creativity"]] ∧
    isTooSimilarToDismissed [["generative", "creativity"]]
      "Generative AI for generative thought" = true ∧
    specSetOverlap (tokenizeText "Generative AI for generative thought")
      ["generative", "creativity"] = 1 ∧
    requiredMatches 2 = 2 := by
  refine ⟨by decide, by decide, by decide, by decide⟩

/-- C3 (amended): with the overlap counted over the candidate's token
list (multiplicities included), exactly as the loop of
`isTooSimilarToDismissed` does, the rejection condition is an "if and
only if": the candidate is flagged iff some dismissed token set `D` meets
`min(3, max(2, ceil(0.6·|D|))) ≤ overlap`. -/
theorem near_duplicate_iff_multiset_overlap (sets : List (List String)) (title : String) :
    isTooSimilarToDismissed sets title = true ↔
      ∃ D ∈ sets, requiredMatches D.length ≤ countMatches (tokenizeText title) D := by
  unfold isTooSimilarToDismissed
  by_cases hg : (title == "" || sets.isEmpty) = true
  · rw [if_pos hg]
    simp only [Bool.or_eq_true, beq_iff_eq, List.isEmpty_iff] at hg
    constructor
    · intro h; simp at h
    · rintro ⟨D, hD, hle⟩
      rcases hg with hg | hg
      · subst hg
        rw [tokenizeText_empty, countMatches_nil] at hle
        have h2 := two_le_requiredMatches D.length
        omega
      · subst hg
        simp at hD
  · rw [if_neg hg]
    by_cases ht : (tokenizeText title).isEmpty = true
    · rw [if_pos ht]
      simp only [List.isEmpty_iff] at ht
      constructor
      · intro h; simp at h
      · rintro ⟨D, hD, hle⟩
        rw [ht, countMatches_nil] at hle
        have h2 := two_le_requiredMatches D.length
        omega
    · rw [if_neg ht]
      simp only [List.any_eq_true, decide_eq_true_eq]

/-- C3 witness: a concrete rejection derived through the amended
equivalence (token list ["creative", "labor", "generative", "creativity"]
overlaps the dismissed set in 2 tokens, meeting threshold 2). -/
theorem near_duplicate_iff_multiset_overlap_witness :
    isTooSimilarToDismissed [["generative", "creativity"]]
      "Creative Labor and Generative Creativity Prospects" = true :=
  (near_duplicate_iff_multiset_overlap [["generative", "creativity"]]
    "Creative Labor and Generative Creativity Prospects").mpr
    ⟨["generative", "creativity"], by decide, by decide⟩

/-- C1: a dismiss request carrying a doi or a title succeeds (status 200)
and the state returned with that success has no shortlist entry left
whose doi key equals the dismissed (nonempty) doi key or whose title key
equals the dismissed (nonempty) title key — the purge is part of the same
synchronous transition that produces the 200 response. -/
theorem dismiss_purges_shortlist (hash : String → String) (now : String) (body : Article)
    (s : Store) (h : jsTruthy body.doi = true ∨ jsTruthy body.title = true) :
    (handleDismissRequest hash now body s).2.status = 200 ∧
    ∀ a ∈ (handleDismissRequest hash now body s).1.shortlist.getD [],
      ¬ matchesDismissedKeys (normalizeValue body.doi) (normalizeValue body.title) a := by
  rw [handleDismissRequest_eq_of_id hash now body s h]
  refine ⟨rfl, ?_⟩
  intro a ha
  exact (articleKeepFilter_true_iff _ _ a).mp
    (removeFromShortlistByKeys_keeps _ _ _ a ha)

/-- C1 witness: dismissing `{doi: 10.1/x, title: Some Shortlisted Work}`
over a store whose shortlist holds exactly that identity plus an
unrelated entry. -/
theorem dismiss_purges_shortlist_witness :
    ((handleDismissRequest (fun b => b) "2026-02-03"
        { doi := some "10.1/x", title := some "Some Shortlisted Work" }
        { references := [],
          shortlist := some
            [{ doi := some "10.1/x", title := some "Some Shortlisted Work" },
             { doi := some "10.2/y", title := some "An Unrelated Entry" }] }).2.status = 200 ∧
      ∀ a ∈ (handleDismissRequest (fun b => b) "2026-02-03"
          { doi := some "10.1/x", title := some "Some Shortlisted Work" }
          { references := [],
            shortlist := some
              [{ doi := some "10.1/x", title := some "Some Shortlisted Work" },
               { doi := some "10.2/y", title := some "An Unrelated Entry" }] }).1.shortlist.getD [],
        ¬ matchesDismissedKeys (normalizeValue (some "10.1/x"))
            (normalizeValue (some "Some Shortlisted Work")) a) :=
  dismiss_purges_shortlist (fun b => b) "2026-02-03"
    { doi := some "10.1/x", title := some "Some Shortlisted Work" }
    { references := [],
      shortlist := some
        [{ doi := some "10.1/x", title := some "Some Shortlisted Work" },
         { doi := some "10.2/y", title := some "An Unrelated Entry" }] }
    (Or.inl (by decide))

/-- C9: a dismiss request with neither a (truthy) doi nor a (truthy)
title is rejected with status 400 and the store — references container,
shortlist aggregate and write counter alike — is returned exactly
unchanged. -/
theorem dismiss_missing_identifier_rejected (hash : String → String) (now : String)
    (body : Article) (s : Store)
    (hdoi : jsTruthy body.doi = false) (htitle : jsTruthy body.title = false) :
    handleDismissRequest hash now body s =
      (s, { status := 400, error := some "doi or title required" }) := by
  unfold handleDismissRequest
  simp [hdoi, htitle]

/-- C9 witness: the empty request body against a nonempty store. -/
theorem dismiss_missing_identifier_rejected_witness :
    handleDismissRequest (fun b => b) "2026-02-03" {}
        { references := [cxDismissedDoc],
          shortlist := some [{ title := some "Kept Entry" }] } =
      ({ references := [cxDismissedDoc],
         shortlist := some [{ title := some "Kept Entry" }] },
       { status := 400, error := some "doi or title required" }) :=
  dismiss_missing_identifier_rejected (fun b => b) "2026-02-03" {}
    { references := [cxDismissedDoc], shortlist := some [{ title := some "Kept Entry" }] }
    (by decide) (by decide)

/-- C4: the dismissed record id is `dismissed_` plus the hash of the doi
key, falling back to the title key, falling back to the literal
"unknown"; dismissing the same identity twice (equal normalized keys)
upserts the same id both times and leaves exactly one record with that id
in the references container. -/
theorem dismiss_idempotent_record_id (hash : String → String) (now1 now2 : String)
    (b1 b2 : Article) (s : Store)
    (h1 : jsTruthy b1.doi = true ∨ jsTruthy b1.title = true)
    (h2 : jsTruthy b2.doi = true ∨ jsTruthy b2.title = true)
    (hdoi : normalizeValue b1.doi = normalizeValue b2.doi)
    (htitle : normalizeValue b1.title = normalizeValue b2.title)
    (hids : (s.references.map RefDoc.id).Nodup) :
    (handleDismissRequest hash now1 b1 s).2.status = 200 ∧
    (handleDismissRequest hash now2 b2 (handleDismissRequest hash now1 b1 s).1).2.status = 200 ∧
    (normalizeValue b1.doi ≠ "" →
       buildDismissedId hash (normalizeValue b1.doi) (normalizeValue b1.title) =
         "dismissed_" ++ hash (normalizeValue b1.doi)) ∧
    (normalizeValue b1.doi = "" → normalizeValue b1.title ≠ "" →
       buildDismissedId hash (normalizeValue b1.doi) (normalizeValue b1.title) =
         "dismissed_" ++ hash (normalizeValue b1.title)) ∧
    (normalizeValue b1.doi = "" → normalizeValue b1.title = "" →
       buildDismissedId hash (normalizeValue b1.doi) (normalizeValue b1.title) =
         "dismissed_" ++ hash "unknown") ∧
    countId (buildDismissedId hash (normalizeValue b1.doi) (normalizeValue b1.title))
      (handleDismissRequest hash now2 b2 (handleDismissRequest hash now1 b1 s).1).1.references
      = 1 := by
  rw [handleDismissRequest_eq_of_id hash now1 b1 s h1]
  rw [handleDismissRequest_eq_of_id hash now2 b2 _ h2]
  refine ⟨rfl, rfl, ?_, ?_, ?_, ?_⟩
  · intro h
    simp [buildDismissedId, h]
  · intro h h'
    simp [buildDismissedId, h, h']
  · intro h h'
    simp [buildDismissedId, h, h']
  · dsimp only
    rw [removeFromShortlistByKeys_references, upsertRef_references,
      removeFromShortlistByKeys_references, upsertRef_references]
    have hnodup1 : ((upsertById (dismissedDocOf hash now1 b1) s.references).map RefDoc.id).Nodup :=
      nodup_upsertById _ _ hids
    have hid2 : (dismissedDocOf hash now2 b2).id =
        buildDismissedId hash (normalizeValue b1.doi) (normalizeValue b1.title) := by
      simp [dismissedDocOf, hdoi, htitle]
    calc countId (buildDismissedId hash (normalizeValue b1.doi) (normalizeValue b1.title))
          (upsertById (dismissedDocOf hash now2 b2)
            (upsertById (dismissedDocOf hash now1 b1) s.references))
        = countId (dismissedDocOf hash now2 b2).id
            (upsertById (dismissedDocOf hash now2 b2)
              (upsertById (dismissedDocOf hash now1 b1) s.references)) := by rw [hid2]
      _ = 1 := countId_upsertById _ _ hnodup1

/-- C4 witness: dismissing `{doi: 10.1/A}` twice over the empty store
leaves exactly one record under the hashed doi-key id. -/
theorem dismiss_idempotent_record_id_witness :
    countId (buildDismissedId (fun b => b) (normalizeValue (some "10.1/A"))
        (normalizeValue (none : Option String)))
      (handleDismissRequest (fun b => b) "t2" { doi := some "10.1/A" }
        (handleDismissRequest (fun b => b) "t1" { doi := some "10.1/A" } {}).1).1.references
      = 1 :=
  (dismiss_idempotent_record_id (fun b => b) "t1" "t2"
    { doi := some "10.1/A" } { doi := some "10.1/A" } {}
    (Or.inl (by decide)) (Or.inl (by decide)) rfl rfl (by simp)).2.2.2.2.2

theorem filterShortlistIfShrunk_of_none (keep : Article → Bool) (s : Store)
    (h : s.shortlist = none) : filterShortlistIfShrunk keep s = s := by
  obtain ⟨refs, sl, w⟩ := s
  have h' : sl = none := h
  subst h'
  rfl

theorem RemoveFromShortlist_eq_of_key (dec : String → Option String) (raw : Option String)
    (s : Store) (h : (getIdentifierKeyFromRequest dec raw).getD "" ≠ "") :
    RemoveFromShortlist dec raw s =
      (removeFromShortlistByIdentifierKey ((getIdentifierKeyFromRequest dec raw).getD "") s,
       { status := 200, success := true }) := by
  unfold RemoveFromShortlist
  simp [h]

theorem removeFromShortlistByIdentifierKey_eq (k : String) (s : Store) (h : k ≠ "") :
    removeFromShortlistByIdentifierKey k s = filterShortlistIfShrunk (identifierKeepFilter k) s := by
  unfold removeFromShortlistByIdentifierKey
  simp [h]

/-- C7: `RemoveFromShortlist` normalizes the (percent-decoded) identifier,
rejects an empty key with 400 and no state change; with a nonempty key it
answers 200, leaves an absent aggregate alone, replaces the entry list by
exactly the entries whose keys differ from the identifier, returns the
store bit-for-bit unchanged (no write) when nothing matched, and performs
exactly one aggregate write when something was removed.  An entry is
removed precisely when its doi key or title key equals the normalized
identifier. -/
theorem remove_from_shortlist_frame (dec : String → Option String) (raw : Option String)
    (s : Store) :
    ((getIdentifierKeyFromRequest dec raw).getD "" = "" →
       RemoveFromShortlist dec raw s =
         (s, { status := 400, error := some "identifier required" })) ∧
    (∀ r, raw = some r → r ≠ "" →
       (getIdentifierKeyFromRequest dec raw).getD "" =
         normalizeValue (some (decodeIdentifier dec r))) ∧
    ((getIdentifierKeyFromRequest dec raw).getD "" ≠ "" →
       (RemoveFromShortlist dec raw s).2 = { status := 200, success := true } ∧
       (s.shortlist = none → (RemoveFromShortlist dec raw s).1 = s) ∧
       (∀ arts, s.shortlist = some arts →
         (RemoveFromShortlist dec raw s).1.shortlist =
           some (arts.filter
             (identifierKeepFilter ((getIdentifierKeyFromRequest dec raw).getD ""))) ∧
         (arts.filter (identifierKeepFilter ((getIdentifierKeyFromRequest dec raw).getD ""))
             = arts →
           (RemoveFromShortlist dec raw s).1 = s) ∧
         (arts.filter (identifierKeepFilter ((getIdentifierKeyFromRequest dec raw).getD ""))
             ≠ arts →
           (RemoveFromShortlist dec raw s).1.shortlistWrites = s.shortlistWrites + 1))) ∧
    (∀ a : Article, (getIdentifierKeyFromRequest dec raw).getD "" ≠ "" →
       (identifierKeepFilter ((getIdentifierKeyFromRequest dec raw).getD "") a = false ↔
         ((getArticleKeys a).1 = (getIdentifierKeyFromRequest dec raw).getD "" ∨
          (getArticleKeys a).2 = (getIdentifierKeyFromRequest dec raw).getD ""))) := by
  refine ⟨?_, ?_, ?_, ?_⟩
  · intro h
    unfold RemoveFromShortlist
    simp [h]
  · intro r hr hne
    subst hr
    unfold getIdentifierKeyFromRequest
    simp [hne]
  · intro h
    rw [RemoveFromShortlist_eq_of_key dec raw s h]
    rw [removeFromShortlistByIdentifierKey_eq _ s h]
    refine ⟨rfl, ?_, ?_⟩
    · intro hnone
      exact filterShortlistIfShrunk_of_none _ s hnone
    · intro arts harts
      refine ⟨filterShortlistIfShrunk_shortlist _ s arts harts, ?_, ?_⟩
      · intro hall
        exact filterShortlistIfShrunk_eq_self _ s arts harts hall
      · intro hsh
        exact filterShortlistIfShrunk_writes _ s arts harts hsh
  · intro a h
    exact identifierKeepFilter_false_iff _ a h

/-- C7 witness: removing identifier " DOI/ABC " (normalizing to
"doi/abc") from a two-entry shortlist filters out exactly the matching
entry. -/
theorem remove_from_shortlist_frame_witness :
    (RemoveFromShortlist (fun x => some x) (some " DOI/ABC ")
        { shortlist := some [{ doi := some "doi/abc", title := some "Title One" },
                             { doi := some "10.2/y", title := some "Title Two" }] }).1.shortlist =
      some ([({ doi := some "doi/abc", title := some "Title One" } : Article),
             { doi := some "10.2/y", title := some "Title Two" }].filter
        (identifierKeepFilter
          ((getIdentifierKeyFromRequest (fun x => some x) (some " DOI/ABC ")).getD ""))) :=
  (((remove_from_shortlist_frame (fun x => some x) (some " DOI/ABC ")
      { shortlist := some [{ doi := some "doi/abc", title := some "Title One" },
                           { doi := some "10.2/y", title := some "Title Two" }] }).2.2.1
    (by decide)).2.2
    [{ doi := some "doi/abc", title := some "Title One" },
     { doi := some "10.2/y", title := some "Title Two" }] rfl).1

/-- C6: when the referenced record exists, `UpdateReference` answers 200
and every entry still in the shortlist aggregate afterwards matches
neither the pre-update record's (nonempty) keys nor the post-update
record's (nonempty) keys — e.g. a title change from "Old Title" to
"New Title" purges entries keyed to either title key. -/
theorem update_reference_purges_old_and_new (id : String) (body : RefUpdate) (now : String)
    (s : Store) (existing : RefDoc) (hfind : getRefItem id s = some existing) :
    (UpdateReference id body now s).2.status = 200 ∧
    ∀ a ∈ (UpdateReference id body now s).1.shortlist.getD [],
      ¬ refMatchesKeys (getReferenceKeys existing).1 (getReferenceKeys existing).2 a ∧
      ¬ refMatchesKeys (getReferenceKeys (applyRefUpdate existing body id now)).1
          (getReferenceKeys (applyRefUpdate existing body id now)).2 a := by
  unfold UpdateReference
  rw [hfind]
  refine ⟨rfl, ?_⟩
  intro a ha
  dsimp only at ha
  constructor
  · have hmem := referencesRemoveFromShortlistByKeys_mem_orig _ _ _ a ha
    have hkeep := referencesRemoveFromShortlistByKeys_keeps _ _ _ a hmem
    exact (refKeepFilter_true_iff _ _ a).mp hkeep
  · have hkeep := referencesRemoveFromShortlistByKeys_keeps _ _ _ a ha
    exact (refKeepFilter_true_iff _ _ a).mp hkeep

/-- C6 witness: renaming reference r1 from "Old Title" to "New Title"
over a shortlist holding one entry per title key. -/
theorem update_reference_purges_old_and_new_witness :
    (UpdateReference "r1" { title := some "New Title" } "2026-02-03"
        { references := [{ id := "r1", title := some "Old Title" }],
          shortlist := some [{ title := some "Old Title" }, { title := some "New Title" }] }).2.status
      = 200 ∧
    ∀ a ∈ (UpdateReference "r1" { title := some "New Title" } "2026-02-03"
        { references := [{ id := "r1", title := some "Old Title" }],
          shortlist := some [{ title := some "Old Title" }, { title := some "New Title" }] }).1.shortlist.getD [],
      ¬ refMatchesKeys (getReferenceKeys { id := "r1", title := some "Old Title" }).1
          (getReferenceKeys { id := "r1", title := some "Old Title" }).2 a ∧
      ¬ refMatchesKeys
          (getReferenceKeys (applyRefUpdate { id := "r1", title := some "Old Title" }
            { title := some "New Title" } "r1" "2026-02-03")).1
          (getReferenceKeys (applyRefUpdate { id := "r1", title := some "Old Title" }
            { title := some "New Title" } "r1" "2026-02-03")).2 a :=
  update_reference_purges_old_and_new "r1" { title := some "New Title" } "2026-02-03"
    { references := [{ id := "r1", title := some "Old Title" }],
      shortlist := some [{ title := some "Old Title" }, { title := some "New Title" }] }
    { id := "r1", title := some "Old Title" } (by decide)

theorem getArticleKeys_shortlistEntryOf (article : Article) (now : String) :
    getArticleKeys (shortlistEntryOf article now) = getArticleKeys article := rfl

theorem not_keysClash_of_addDupPred_false (article x : Article) (now : String)
    (h : addDupPred article x = false) : ¬ keysClash x (shortlistEntryOf article now) := by
  simp only [keysClash, getArticleKeys_shortlistEntryOf]
  simp only [addDupPred, Bool.or_eq_false_iff, Bool.and_eq_false_iff,
    bne_eq_false_iff_eq, beq_eq_false_iff_ne] at h
  obtain ⟨h1, h2⟩ := h
  rintro (⟨hne, heq⟩ | ⟨hne, heq⟩)
  · rcases h1 with h | h
    · exact hne (heq.trans h)
    · exact h heq
  · rcases h2 with h | h
    · exact hne (heq.trans h)
    · exact h heq

/-- C5: the Shortlist never holds two entries sharing a nonempty doi key
or a nonempty title key: `AddToShortlist` preserves the invariant, an add
whose nonempty key equals an existing entry's key returns 200 without
touching the store, and adding the same doi-10.1/a article to an empty
shortlist twice leaves exactly one entry. -/
theorem shortlist_no_duplicate_keys (article : Article) (now : String) (s : Store)
    (hok : ShortlistOk s) :
    ShortlistOk (AddToShortlist article now s).1 ∧
    (jsTruthy article.title = true →
       (s.shortlist.getD []).any (addDupPred article) = true →
       (AddToShortlist article now s).1 = s ∧ (AddToShortlist article now s).2.status = 200) ∧
    ((AddToShortlist { doi := some "10.1/a", title := some "A Sample Candidate Title" } "t2"
        (AddToShortlist { doi := some "10.1/a", title := some "A Sample Candidate Title" } "t1"
          { shortlist := some [] }).1).1.shortlist.getD []).length = 1 := by
  refine ⟨?_, ?_, by decide⟩
  · by_cases htitle : jsTruthy article.title = true
    · by_cases hd : isDismissedArticle article (loadDismissedSets s).dismissedDois
          (loadDismissedSets s).dismissedTitles = true
      · rw [AddToShortlist_eq_skip article now s htitle hd]
        exact hok
      · have hd' : isDismissedArticle article (loadDismissedSets s).dismissedDois
            (loadDismissedSets s).dismissedTitles = false := by simpa using hd
        by_cases hany : (s.shortlist.getD []).any (addDupPred article) = true
        · rw [AddToShortlist_eq_dup article now s htitle hd' hany]
          exact hok
        · have hany' : (s.shortlist.getD []).any (addDupPred article) = false := by
            simpa using hany
          rw [AddToShortlist_eq_append article now s htitle hd' hany']
          intro arts' harts'
          have he : arts' = (s.shortlist.getD []) ++ [shortlistEntryOf article now] := by
            simpa [upsertShortlist] using harts'.symm
          subst he
          rw [List.pairwise_append]
          refine ⟨?_, by simp, ?_⟩
          · cases hs : s.shortlist with
            | none => simp
            | some arts0 => simpa using hok arts0 hs
          · intro x hx y hy
            simp only [List.mem_singleton] at hy
            subst hy
            apply not_keysClash_of_addDupPred_false
            have hall := List.any_eq_false.mp hany'
            simpa using hall x hx
    · have htitle' : jsTruthy article.title = false := by simpa using htitle
      rw [AddToShortlist_eq_invalid article now s htitle']
      exact hok
  · intro ht hany
    by_cases hd : isDismissedArticle article (loadDismissedSets s).dismissedDois
        (loadDismissedSets s).dismissedTitles = true
    · rw [AddToShortlist_eq_skip article now s ht hd]
      exact ⟨rfl, rfl⟩
    · have hd' : isDismissedArticle article (loadDismissedSets s).dismissedDois
          (loadDismissedSets s).dismissedTitles = false := by simpa using hd
      rw [AddToShortlist_eq_dup article now s ht hd' hany]
      exact ⟨rfl, rfl⟩

/-- C5 witness: re-adding an article whose doi key already occurs returns
200 and leaves the store untouched. -/
theorem shortlist_no_duplicate_keys_witness :
    (AddToShortlist { doi := some "10.1/a", title := some "A Different Long Title" } "t3"
        { shortlist := some [{ doi := some "10.1/a", title := some "A Sample Candidate Title" }] }).1
      = { shortlist := some [{ doi := some "10.1/a", title := some "A Sample Candidate Title" }] } ∧
    (AddToShortlist { doi := some "10.1/a", title := some "A Different Long Title" } "t3"
        { shortlist := some [{ doi := some "10.1/a", title := some "A Sample Candidate Title" }] }).2.status
      = 200 :=
  (shortlist_no_duplicate_keys
    { doi := some "10.1/a", title := some "A Different Long Title" } "t3"
    { shortlist := some [{ doi := some "10.1/a", title := some "A Sample Candidate Title" }] }
    (by intro arts h; cases h; simp)).2.1 (by decide) (by decide)

/-- A non-dismissed catalogue reference with doi 10.1/a. -/
def cxExistingRef : RefDoc :=
  { id := "ref1", doi := some "10.1/a", title := some "Existing Reference Item" }

/-- A candidate article carrying the same doi as `cxExistingRef`. -/
def cxCandidate : Article :=
  { doi := some "10.1/a", title := some "A Sufficiently Long Candidate" }

/-- C2 counterexample: `AddToShortlist` checks dismissed identities and
shortlist duplicates but never the existing-reference catalogue, so a
candidate whose doi key equals a (non-dismissed) existing reference's doi
key IS appended to the Shortlist, refuting the claim's "is not appended
to the Shortlist" for the existing-reference match kind. -/
theorem addToShortlist_existing_reference_counterexample :
    cxExistingRef.dismissed = false ∧
    normalizeValue cxCandidate.doi = normalizeValue cxExistingRef.doi ∧
    ((AddToShortlist cxCandidate "t0"
        { references := [cxExistingRef], shortlist := some [] }).1.shortlist.getD []).map
      (fun e => normalizeValue e.doi) = [normalizeValue cxExistingRef.doi] ∧
    (AddToShortlist cxCandidate "t0"
        { references := [cxExistingRef], shortlist := some [] }).2 =
      { status := 200, success := true } := by
  refine ⟨by decide, by decide, by decide, by decide⟩

theorem isValidArticle_false_cases (ctx : DedupCtx) (title doi : Option String)
    (abstract : String)
    (h : ((normalizeValue doi != "" && ctx.existingDOIs.contains (normalizeValue doi)) = true) ∨
         ((normalizeValue title != "" && ctx.existingTitles.contains (normalizeValue title)) = true) ∨
         ((normalizeValue doi != "" && ctx.dismissedDois.contains (normalizeValue doi)) = true) ∨
         ((normalizeValue title != "" && ctx.dismissedTitles.contains (normalizeValue title)) = true) ∨
         ((ctx.allArticles.any fun a =>
             normalizeValue doi != "" && (getArticleKeys a).1 == normalizeValue doi ||
             normalizeValue title != "" && (getArticleKeys a).2 == normalizeValue title) = true)) :
    isValidArticle ctx title doi abstract = false := by
  simp only [isValidArticle]
  by_cases g1 : (title.getD "").length < 10
  · rw [if_pos g1]
  · rw [if_neg g1]
    by_cases g2 : isAllNumPunct (title.getD "") = true
    · rw [if_pos g2]
    · rw [if_neg g2]
      by_cases g3 : isTitlePendingPlaceholder (title.getD "") = true
      · rw [if_pos g3]
      · rw [if_neg g3]
        by_cases g4 : (normalizeValue doi != "" &&
            ctx.existingDOIs.contains (normalizeValue doi)) = true
        · rw [if_pos g4]
        · rw [if_neg g4]
          by_cases g5 : (normalizeValue title != "" &&
              ctx.existingTitles.contains (normalizeValue title)) = true
          · rw [if_pos g5]
          · rw [if_neg g5]
            by_cases g6 : (normalizeValue doi != "" &&
                ctx.dismissedDois.contains (normalizeValue doi)) = true
            · rw [if_pos g6]
            · rw [if_neg g6]
              by_cases g7 : (normalizeValue title != "" &&
                  ctx.dismissedTitles.contains (normalizeValue title)) = true
              · rw [if_pos g7]
              · rw [if_neg g7]
                by_cases g8 : isTooSimilarToDismissed ctx.dismissedTokenSets (title.getD "") = true
                · rw [if_pos g8]
                · rw [if_neg g8]
                  by_cases g9 : (ctx.allArticles.any fun a =>
                      normalizeValue doi != "" && (getArticleKeys a).1 == normalizeValue doi ||
                      normalizeValue title != "" &&
                        (getArticleKeys a).2 == normalizeValue title) = true
                  · rw [if_pos g9]
                  · rcases h with h | h | h | h | h
                    · exact absurd h g4
                    · exact absurd h g5
                    · exact absurd h g6
                    · exact absurd h g7
                    · exact absurd h g9

/-- C2 (amended): `isValidArticle` is false for every candidate whose
nonempty doi/title key occurs in the existing-reference sets, the
dismissed sets, or among the already-admitted candidates of the run; and
a candidate matching a dismissed identity is never appended by
`AddToShortlist` (the store is returned unchanged).  Matching an
existing-reference identity blocks only discovery output, not
`AddToShortlist` (see the counterexample). -/
theorem dedup_admission_amended (ctx : DedupCtx) (title doi : Option String) (abstract : String)
    (article : Article) (now : String) (s : Store) :
    (normalizeValue doi ≠ "" → ctx.existingDOIs.contains (normalizeValue doi) = true →
       isValidArticle ctx title doi abstract = false) ∧
    (normalizeValue title ≠ "" → ctx.existingTitles.contains (normalizeValue title) = true →
       isValidArticle ctx title doi abstract = false) ∧
    (normalizeValue doi ≠ "" → ctx.dismissedDois.contains (normalizeValue doi) = true →
       isValidArticle ctx title doi abstract = false) ∧
    (normalizeValue title ≠ "" → ctx.dismissedTitles.contains (normalizeValue title) = true →
       isValidArticle ctx title doi abstract = false) ∧
    (ctx.allArticles.any (fun a =>
        (normalizeValue doi != "" && (getArticleKeys a).1 == normalizeValue doi) ||
        (normalizeValue title != "" && (getArticleKeys a).2 == normalizeValue title)) = true →
       isValidArticle ctx title doi abstract = false) ∧
    (isDismissedArticle article (loadDismissedSets s).dismissedDois
        (loadDismissedSets s).dismissedTitles = true →
       (AddToShortlist article now s).1 = s) := by
  refine ⟨?_, ?_, ?_, ?_, ?_, ?_⟩
  · intro h1 h2
    refine isValidArticle_false_cases ctx title doi abstract (Or.inl ?_)
    rw [Bool.and_eq_true]
    exact ⟨bne_iff_ne.mpr h1, h2⟩
  · intro h1 h2
    refine isValidArticle_false_cases ctx title doi abstract (Or.inr (Or.inl ?_))
    rw [Bool.and_eq_true]
    exact ⟨bne_iff_ne.mpr h1, h2⟩
  · intro h1 h2
    refine isValidArticle_false_cases ctx title doi abstract (Or.inr (Or.inr (Or.inl ?_)))
    rw [Bool.and_eq_true]
    exact ⟨bne_iff_ne.mpr h1, h2⟩
  · intro h1 h2
    refine isValidArticle_false_cases ctx title doi abstract
      (Or.inr (Or.inr (Or.inr (Or.inl ?_))))
    rw [Bool.and_eq_true]
    exact ⟨bne_iff_ne.mpr h1, h2⟩
  · intro h
    exact isValidArticle_false_cases ctx title doi abstract
      (Or.inr (Or.inr (Or.inr (Or.inr h))))
  · intro h
    by_cases ht : jsTruthy article.title = true
    · rw [AddToShortlist_eq_skip article now s ht h]
    · have ht' : jsTruthy article.title = false := by simpa using ht
      rw [AddToShortlist_eq_invalid article now s ht']

/-- C2 witness: doi 10.1/a in the existing set refutes admission, and a
dismissed identity leaves the store unchanged on add. -/
theorem dedup_admission_amended_witness :
    isValidArticle { existingDOIs := ["10.1/a"] } (some "A Sufficiently Long Candidate")
      (some "10.1/a") "" = false ∧
    (AddToShortlist { doi := some "10.5/d", title := some "Generative Creativity" } "t0"
        { references := [cxDismissedDoc], shortlist := some [] }).1 =
      { references := [cxDismissedDoc], shortlist := some [] } :=
  ⟨(dedup_admission_amended { existingDOIs := ["10.1/a"] }
      (some "A Sufficiently Long Candidate") (some "10.1/a") ""
      { doi := some "10.5/d", title := some "Generative Creativity" } "t0"
      { references := [cxDismissedDoc], shortlist := some [] }).1
      (by decide) (by decide),
   (dedup_admission_amended { existingDOIs := ["10.1/a"] }
      (some "A Sufficiently Long Candidate") (some "10.1/a") ""
      { doi := some "10.5/d", title := some "Generative Creativity" } "t0"
      { references := [cxDismissedDoc], shortlist := some [] }).2.2.2.2.2
      (by decide)⟩

/-- C10 counterexample: a whitespace-only title is truthy in JS, so
`AddToShortlist` accepts it and appends an entry whose normalized title
key is empty (and whose stored `titleKey` field is null), refuting
"every ShortlistEntry has a non-empty titleKey". -/
theorem shortlist_whitespace_title_counterexample :
    jsTruthy (some "   ") = true ∧
    ((AddToShortlist { doi := some "10.9/z", title := some "   " } "t0"
        { shortlist := some [] }).1.shortlist.getD []).map
      (fun e => (normalizeValue e.title, e.titleKey)) = [("", none)] ∧
    (AddToShortlist { doi := some "10.9/z", title := some "   " } "t0"
        { shortlist := some [] }).2.status = 200 := by
  refine ⟨by decide, by decide, by decide⟩

/-- C10 (amended): an article whose title is absent or the empty string
is rejected with HTTP 400 "Article title required" and the store is
returned exactly as it was (no read is acted on, no write happens), so a
DOI-only article never becomes a shortlist entry; and `AddToShortlist`
preserves "every entry has a truthy (non-empty) title" — though that
title may be whitespace-only, so the derived titleKey can still be
empty (see the counterexample). -/
theorem add_requires_title_amended (article : Article) (now : String) (s : Store) :
    (jsTruthy article.title = false →
       AddToShortlist article now s =
         (s, { status := 400, error := some "Article title required" })) ∧
    ((∀ a ∈ s.shortlist.getD [], jsTruthy a.title = true) →
       ∀ a ∈ (AddToShortlist article now s).1.shortlist.getD [], jsTruthy a.title = true) := by
  constructor
  · intro h
    exact AddToShortlist_eq_invalid article now s h
  · intro hall a ha
    by_cases ht : jsTruthy article.title = true
    · by_cases hd : isDismissedArticle article (loadDismissedSets s).dismissedDois
          (loadDismissedSets s).dismissedTitles = true
      · rw [AddToShortlist_eq_skip article now s ht hd] at ha
        exact hall a ha
      · have hd' : isDismissedArticle article (loadDismissedSets s).dismissedDois
            (loadDismissedSets s).dismissedTitles = false := by simpa using hd
        by_cases hany : (s.shortlist.getD []).any (addDupPred article) = true
        · rw [AddToShortlist_eq_dup article now s ht hd' hany] at ha
          exact hall a ha
        · have hany' : (s.shortlist.getD []).any (addDupPred article) = false := by
            simpa using hany
          rw [AddToShortlist_eq_append article now s ht hd' hany'] at ha
          have ha' : a ∈ (s.shortlist.getD []) ++ [shortlistEntryOf article now] := ha
          rw [List.mem_append] at ha'
          rcases ha' with ha' | ha'
          · exact hall a ha'
          · simp only [List.mem_singleton] at ha'
            subst ha'
            exact ht
    · have ht' : jsTruthy article.title = false := by simpa using ht
      rw [AddToShortlist_eq_invalid article now s ht'] at ha
      exact hall a ha

/-- C10 witness: a DOI-only article is rejected with 400 and no state
change. -/
theorem add_requires_title_amended_witness :
    AddToShortlist { doi := some "10.7/q" } "t0"
        { shortlist := some [{ title := some "Kept Entry" }] } =
      ({ shortlist := some [{ title := some "Kept Entry" }] },
       { status := 400, error := some "Article title required" }) :=
  (add_requires_title_amended { doi := some "10.7/q" } "t0"
    { shortlist := some [{ title := some "Kept Entry" }] }).1 (by decide)

/-- Candidate with exact published date 2024-01-01. -/
def articlePub20240101 : Article :=
  { title := some "Candidate From 2024", year := some "2024",
    publishedDate := some { y := 2024, m := 1, d := 1 } }

/-- Candidate with exact published date 2023-06-01. -/
def articlePub20230601 : Article :=
  { title := some "Candidate Mid 2023", year := some "2023",
    publishedDate := some { y := 2023, m := 6, d := 1 } }

/-- Year-only candidate: reported year "2022", no exact date, so its
best-known date defaults to 2022-01-01. -/
def articleYear2022 : Article :=
  { title := some "Candidate Year Only", year := some "2022" }

/-- C8: the assembly stage returns at most 30 articles, sorted descending
by best-known date (publishedDate, else January 1st of the reported
year); in only-new mode every returned article has `isNew = true`; and
the concrete scenario [year-only 2022, 2024-01-01, 2023-06-01] assembles
to [2024-01-01, 2023-06-01, 2022-01-01]. -/
theorem assemble_sorted_truncated (filterNew : Bool) (dismissedDois dismissedTitles : List String)
    (arts : List Article) :
    (GetNewsreaderArticlesAssemble filterNew dismissedDois dismissedTitles arts).length ≤ 30 ∧
    (GetNewsreaderArticlesAssemble filterNew dismissedDois dismissedTitles arts).Pairwise
      dateDescRel ∧
    (filterNew = true →
       ∀ a ∈ GetNewsreaderArticlesAssemble filterNew dismissedDois dismissedTitles arts,
         a.isNew = true) ∧
    GetNewsreaderArticlesAssemble false [] []
        [articleYear2022, articlePub20240101, articlePub20230601] =
      [articlePub20240101, articlePub20230601, articleYear2022] := by
  refine ⟨?_, ?_, ?_, by decide⟩
  · simp only [GetNewsreaderArticlesAssemble]
    exact List.length_take_le 30 _
  · simp only [GetNewsreaderArticlesAssemble]
    have hsorted := pairwise_sortByDateDesc arts
    have h1 : (if filterNew then (sortByDateDesc arts).filter (fun a => a.isNew)
        else sortByDateDesc arts).Pairwise dateDescRel := by
      by_cases hf : filterNew = true
      · rw [if_pos hf]
        exact List.Pairwise.sublist (List.filter_sublist _) hsorted
      · rw [if_neg hf]
        exact hsorted
    have h2 : ((if filterNew then (sortByDateDesc arts).filter (fun a => a.isNew)
        else sortByDateDesc arts).filter
          (fun a => !isDismissedArticle a dismissedDois dismissedTitles)).Pairwise dateDescRel :=
      List.Pairwise.sublist (List.filter_sublist _) h1
    exact List.Pairwise.sublist (List.take_sublist _ _) h2
  · intro hf a ha
    simp only [GetNewsreaderArticlesAssemble] at ha
    rw [if_pos hf] at ha
    have h1 := List.take_subset 30 _ ha
    have h2 := List.mem_of_mem_filter h1
    exact List.of_mem_filter h2

/-- C8 witness: in only-new mode over a mixed list, every returned
article has `isNew = true`. -/
theorem assemble_sorted_truncated_witness :
    ∀ a ∈ GetNewsreaderArticlesAssemble true [] []
        [articleYear2022, { articlePub20240101 with isNew := true }],
      a.isNew = true :=
  (assemble_sorted_truncated true [] []
    [articleYear2022, { articlePub20240101 with isNew := true }]).2.2.1 rfl
